import Mathlib

/-!
A verification development for the SSR renderer of src/server/renderer.ts.

The embedding translates the renderer's data model and operations into
executable Lean definitions:

* route matching (`rawMatches`, `withNotFound`, `withApp`, `matchRoutes`)
  follows the match-collection loop of `initSSR` (renderer.ts lines 231-275);
* per-match module building (`buildModule`, `applyFetcherResult`) follows
  lines 276-313, with the data fetcher modelled by the value it returns;
* the module list (`initSSR`) applies the `defaultExport` filter of line 314;
* the cache-control computation (`positiveTtls`, `jsMathMin`,
  `cacheControlValue`) follows lines 113-122;
* the streaming rewrite (`renderStep`, `renderTemplate`, `commonHandler`,
  `linkHandlerEmit`, `scriptHandlerStep`) models the selector-bound handlers
  of lines 83-138 and 153-220 over a flat event-stream view of the template;
* `fetch` assembles the response as in lines 26-225.

External capabilities (the HTML parser engine, file system, dependency
graph, CSS bundling) appear as inputs; machine numbers are modelled as
`Int`/`Nat`.  Helper utilities from src/lib that are not part of the
examined source are modelled from the spec and marked as such.
-/

set_option maxHeartbeats 1000000
set_option maxRecDepth 100000

/-- Result of `pattern.exec({host, pathname})`: the matched input pathname
(`ret.pathname.input`) and the named capture groups (`ret.pathname.groups`).
The `host` component is carried along but never inspected by the renderer. -/
structure URLPatternResult where
  host : String
  pathnameInput : String
  groups : List (String × String)
deriving DecidableEq

/-- `route[2]` in renderer.ts: `meta = \x7bpattern, nesting, filename\x7d`,
with `meta.pattern.pathname` flattened to `patternPathname`. -/
structure RouteMeta where
  patternPathname : String
  nesting : Bool
  filename : String
deriving DecidableEq

/-- An HTTP-response-shaped value returned by a route's data fetcher.
`bodyText` is `await res.text()`; `jsonBody` is the outcome of
`await res.json()` (`some` = the parsed value, abstracted to its textual
form, `none` = the body is not valid JSON). -/
structure FetchResponse where
  status : Nat
  bodyText : String
  jsonBody : Option String
  headers : List (String × String)
deriving DecidableEq

/-- The (awaited) value produced by invoking `dataConfig.get`:
either an HTTP-response-shaped value or anything else (which the
renderer ignores, lines 292-310). -/
inductive FetcherResult where
  | response (res : FetchResponse)
  | nonResponse
deriving DecidableEq

/-- The route module's data-config object (`mod.data` when it is a plain
object).  `get` is `some v` when the config exposes a function fetcher,
modelled by the value `v` it returns for the current request. -/
structure DataConfig where
  cacheTtl : Option Int
  get : Option FetcherResult
deriving DecidableEq

/-- The resolved route module (`await imp()`).  `dataConfig = none` models
`mod.data` not being a plain object (line 278 then uses `\x7b\x7d`);
`defaultExport` records only presence (`mod.default !== undefined`). -/
structure RouteModule where
  dataConfig : Option DataConfig
  defaultExport : Option Unit
deriving DecidableEq

/-- A route-table entry `[pattern, loader, meta]`.  The pattern is its
`exec` function over `(host, pathname)`; the async loader is modelled by
the module it resolves to. -/
structure Route where
  exec : String → String → Option URLPatternResult
  load : RouteModule
  meta : RouteMeta

/-- The per-module URL computed on line 280, reduced to the two components
the renderer reads back (`url.pathname` and `url.search`). -/
structure ModuleURL where
  pathname : String
  search : String
deriving DecidableEq

/-- `SSRModule.error` payload. -/
structure ErrorInfo where
  message : String
  status : Nat
deriving DecidableEq

/-- `SSRModule.redirect` payload. -/
structure RedirectInfo where
  headers : List (String × String)
  status : Nat
deriving DecidableEq

/-- Per-matched-route resolved state (renderer.ts lines 279-312).
`data` holds the parsed JSON value abstracted to its textual form. -/
structure SSRModule where
  url : ModuleURL
  filename : String
  defaultExport : Option Unit
  data : Option String := none
  error : Option ErrorInfo := none
  redirect : Option RedirectInfo := none
  dataCacheTtl : Option Int := none
deriving DecidableEq

/-- Splitting a character list at `/`, keeping non-empty segments; the
first argument is the remaining input, the second the (reversed) current
segment. -/
def splitSegs : List Char → List Char → List String
  | [], acc => if acc.isEmpty then [] else [String.mk acc.reverse]
  | c :: cs, acc =>
    if c = '/' then
      (if acc.isEmpty then [] else [String.mk acc.reverse]) ++ splitSegs cs []
    else splitSegs cs (c :: acc)

/-- Modelled from the spec: `util.splitPath` from src/lib/util.ts is not
under src/; the spec (§4.1) describes the ancestor search as dropping
trailing path segments one at a time, so the path is split into its
non-empty `/`-separated segments. -/
def splitPath (p : String) : List String :=
  splitSegs p.data []

/-- Modelled from the spec: `createStaticURLPatternResult` from
src/lib/url.ts is not under src/; it builds a static pattern result for
the given host and pathname (used to synthesize the `/_404` and `/_app`
matches), so its matched input pathname is the pathname it is given and
it carries no capture groups. -/
def createStaticURLPatternResult (host pathname : String) : URLPatternResult :=
  { host := host, pathnameInput := pathname, groups := [] }

/-- Modelled from the spec: `util.appendUrlParams` from src/lib/util.ts is
not under src/; the spec (§3) says the module `url` is the request URL with
pattern params substituted, i.e. the matched input pathname with the capture
groups appended as search parameters. -/
def appendUrlParams (ret : URLPatternResult) : ModuleURL :=
  { pathname := ret.pathnameInput,
    search :=
      if ret.groups.isEmpty then ""
      else "?" ++ String.intercalate ("&") (ret.groups.map (fun kv => kv.1 ++ "=" ++ kv.2)) }

/-- The inner `for (const route of routes)` search of renderer.ts lines
239-245: first route whose pattern matches the given pathname. -/
def findIndexMatch (routes : List Route) (host pathname : String) :
    Option (URLPatternResult × Route) :=
  routes.findSome? (fun route => (route.exec host pathname).map (fun ret => (ret, route)))

/-- The ancestor-prefix loop of renderer.ts lines 248-256: for
`i = parts.length - 1` down to `1`, try the prefix made of the first `i`
segments; first hit wins. -/
def ancestorGo (route : Route) (host : String) (parts : List String) :
    Nat → Option (URLPatternResult × Route)
  | 0 => none
  | i + 1 =>
    let pathname := "/" ++ String.intercalate ("/") (parts.take (i + 1))
    match route.exec host pathname with
    | some ret => some (ret, route)
    | none => ancestorGo route host parts i

/-- Ancestor search for a nesting route that did not match exactly
(renderer.ts lines 247-257). -/
def ancestorMatch (route : Route) (host pathname : String) :
    Option (URLPatternResult × Route) :=
  ancestorGo route host (splitPath pathname) ((splitPath pathname).length - 1)

/-- The `routes.forEach` match-collection loop of renderer.ts lines
233-258: exact matches are recorded in table order; a nesting non-root
match additionally records the first `pathname + "/index"` match; a
nesting route that fails the exact match records its first ancestor
match. -/
def rawMatches (host pathname : String) (routes : List Route) :
    List (URLPatternResult × Route) :=
  routes.foldl
    (fun acc route =>
      match route.exec host pathname with
      | some ret =>
        let acc := acc ++ [(ret, route)]
        if route.meta.nesting && !(route.meta.patternPathname == "/_app") then
          match findIndexMatch routes host (pathname ++ "/index") with
          | some m => acc ++ [m]
          | none => acc
        else acc
      | none =>
        if route.meta.nesting then
          match ancestorMatch route host pathname with
          | some m => acc ++ [m]
          | none => acc
        else acc)
    []

/-- Renderer.ts lines 259-266: when no recorded match is a leaf
(non-nesting) route, the first `/_404` route (if any) is appended as a
synthetic match for the static pathname `"/_404"`. -/
def withNotFound (host : String) (routes : List Route)
    (ms : List (URLPatternResult × Route)) : List (URLPatternResult × Route) :=
  if (ms.filter (fun m => !m.2.meta.nesting)).length = 0 then
    match routes.find? (fun r => r.meta.patternPathname == "/_404") with
    | some r => ms ++ [(createStaticURLPatternResult host ("/_404"), r)]
    | none => ms
  else ms

/-- Renderer.ts lines 267-275: when the list is non-empty and the first
match's input pathname is not `"/_app"`, the first `/_app` route (if any)
is prepended as a synthetic match for the static pathname `"/_app"`. -/
def withApp (host : String) (routes : List Route)
    (ms : List (URLPatternResult × Route)) : List (URLPatternResult × Route) :=
  match ms with
  | [] => []
  | m0 :: rest =>
    if !(m0.1.pathnameInput == "/_app") then
      match routes.find? (fun r => r.meta.patternPathname == "/_app") with
      | some r => (createStaticURLPatternResult host ("/_app"), r) :: m0 :: rest
      | none => m0 :: rest
    else m0 :: rest

/-- The complete match list built by `initSSR` (renderer.ts lines
231-275). -/
def matchRoutes (host pathname : String) (routes : List Route) :
    List (URLPatternResult × Route) :=
  if routes.isEmpty then []
  else withApp host routes (withNotFound host routes (rawMatches host pathname routes))

/-- Interpretation of the value returned by a route's data fetcher
(renderer.ts lines 292-310): non-response values are ignored; otherwise
status ≥ 400 sets `error` from the body text; a 3xx with a `Location`
header sets `redirect`; a 3xx without one sets a 400 error; and a 2xx
body is parsed as JSON into `data`, with a parse failure setting a 400
error. -/
def applyFetcherResult (ssrModule : SSRModule) (v : FetcherResult) : SSRModule :=
  match v with
  | .nonResponse => ssrModule
  | .response res =>
    if 400 ≤ res.status then
      { ssrModule with error := some { message := res.bodyText, status := res.status } }
    else if 300 ≤ res.status then
      if res.headers.any (fun kv => kv.1 == "Location") then
        { ssrModule with redirect := some { headers := res.headers, status := res.status } }
      else
        { ssrModule with error := some { message := "Missing the `Location` header", status := 400 } }
    else
      match res.jsonBody with
      | some d => { ssrModule with data := some d }
      | none => { ssrModule with error := some { message := "Data must be valid JSON", status := 400 } }

/-- Building one `SSRModule` from a match (renderer.ts lines 276-312):
the base record takes the computed URL, filename, default export and
`cacheTtl`; when the data config exposes a fetcher, its (awaited) result
is interpreted by `applyFetcherResult`. -/
def buildModule (ret : URLPatternResult) (route : Route) : SSRModule :=
  let dataConfig := route.load.dataConfig
  let ssrModule : SSRModule :=
    { url := appendUrlParams ret,
      filename := route.meta.filename,
      defaultExport := route.load.defaultExport,
      dataCacheTtl := dataConfig.bind (fun dc => dc.cacheTtl) }
  match dataConfig.bind (fun dc => dc.get) with
  | some v => applyFetcherResult ssrModule v
  | none => ssrModule

/-- The module list returned by `initSSR` (renderer.ts lines 276-314):
one module per match, then the `defaultExport !== undefined` filter of
line 314. -/
def initSSR (host pathname : String) (routes : List Route) : List SSRModule :=
  ((matchRoutes host pathname routes).map (fun m => buildModule m.1 m.2)).filter
    (fun m => m.defaultExport.isSome)

/-- The redirect short-circuit scan of renderer.ts lines 42-46: the first
module carrying a redirect. -/
def firstRedirect (modules : List SSRModule) : Option RedirectInfo :=
  modules.findSome? (fun m => m.redirect)

/-- The TTL collection of renderer.ts lines 113-115: positive numeric
`dataCacheTtl` values, in module order. -/
def positiveTtls (modules : List SSRModule) : List Int :=
  modules.filterMap
    (fun m =>
      match m.dataCacheTtl with
      | some t => if 0 < t then some t else none
      | none => none)

/-- `Math.min(...ttls)` for a non-empty argument list. -/
def jsMathMin : List Int → Int
  | [] => 0
  | h :: t => t.foldl min h

/-- The Cache-Control value appended on renderer.ts lines 116-122. -/
def cacheControlValue (modules : List SSRModule) : String :=
  if 1 < (positiveTtls modules).length then
    "public, max-age=" ++ toString (jsMathMin (positiveTtls modules))
  else if (positiveTtls modules).length = 1 then
    "public, max-age=" ++ toString ((positiveTtls modules).headD 0)
  else "public, max-age=0, must-revalidate"

/-- Modelled from the spec: `util.isLikelyHttpURL` from src/lib/util.ts is
not under src/; it recognises absolute `http://` / `https://` URLs (the
case-insensitive scheme test is abstracted to the lowercase forms). -/
def isLikelyHttpURL (s : String) : Bool :=
  s.startsWith ("http://") || s.startsWith ("https://")

/-- Modelled from the spec: `util.cleanPath` from src/lib/util.ts is not
under src/; the spec (§4.5) only says relative hrefs/srcs are
path-normalized, modelled as re-joining the non-empty, non-`.` segments
under a leading slash. -/
def cleanPath (p : String) : String :=
  "/" ++ String.intercalate ("/") ((p.splitOn ("/")).filter (fun s => !(s == "") && !(s == ".")))

/-- Modelled from the spec: `toLocalPath` from src/lib/path.ts is not
under src/; it maps a remote package URL to a local dash-prefixed path
and leaves other specifiers unchanged (port/search handling abstracted). -/
def toLocalPath (s : String) : String :=
  if s.startsWith ("https://") then "/-/" ++ s.drop 8
  else if s.startsWith ("http://") then "/-/" ++ s.drop 7
  else s

/-- `JSON.stringify` applied to a string, with character escaping
abstracted (none of the fixture strings need escapes). -/
def jsonQuote (s : String) : String := "\"" ++ s ++ "\""

/-- The serialized form of one route meta inside the route manifest
(renderer.ts line 196, `JSON.stringify` of `r[2]`). -/
def routeMetaJson (m : RouteMeta) : String :=
  "\x7b\"pattern\":\x7b\"pathname\":" ++ jsonQuote m.patternPathname ++ "\x7d,\"nesting\":" ++
    (if m.nesting then "true" else "false") ++ ",\"filename\":" ++ jsonQuote m.filename ++ "\x7d"

/-- The route-manifest script tag appended by the shared head/body handler
(renderer.ts lines 196-199). -/
def routeManifestScript (routes : List Route) : String :=
  "<script id=\"route-manifest\" type=\"application/json\">\x7b\"routes\":[" ++
    String.intercalate (",") (routes.map (fun r => routeMetaJson r.meta)) ++ "]\x7d</script>"

/-- One record of the hydration-data array (renderer.ts lines 91-97);
optional fields are omitted when absent, as `JSON.stringify` drops
`undefined` properties. -/
def ssrDataRecordJson (m : SSRModule) : String :=
  "\x7b\"url\":" ++ jsonQuote (m.url.pathname ++ m.url.search) ++
    ",\"module\":" ++ jsonQuote m.filename ++
    (match m.error with
     | some e => ",\"error\":\x7b\"message\":" ++ jsonQuote e.message ++ ",\"status\":" ++ toString e.status ++ "\x7d"
     | none => "") ++
    (match m.data with
     | some d => ",\"data\":" ++ d
     | none => "") ++
    (match m.dataCacheTtl with
     | some t => ",\"dataCacheTtl\":" ++ toString t
     | none => "") ++ "\x7d"

/-- The hydration-data script tag inserted before the ssr-head marker
(renderer.ts lines 98-100). -/
def ssrDataScript (modules : List SSRModule) : String :=
  "<script id=\"ssr-data\" type=\"application/json\">[" ++
    String.intercalate (",") (modules.map ssrDataRecordJson) ++ "]</script>"

/-- The module-bootstrap script tag inserted before the ssr-head marker
(renderer.ts lines 87-90 and 101-103). -/
def routeModulesScript (modules : List SSRModule) : String :=
  let importStmts := String.join ((List.range modules.length).zip modules |>.map
    (fun im => "import mod_" ++ toString im.1 ++ " from " ++ jsonQuote (im.2.filename.drop 1) ++ ";"))
  let kvs := String.intercalate (",") ((List.range modules.length).zip modules |>.map
    (fun im => jsonQuote im.2.filename ++ ":mod_" ++ toString im.1))
  "<script type=\"module\">" ++ importStmts ++ "window.__ROUTE_MODULES=\x7b" ++ kvs ++ "\x7d;</script>"

/-- What the rewriter does to an `ssr-head` marker element: no handler
registered (SSR did not run), remove-only (the catch branch of lines
126-130), or the success handler of lines 83-107 inserting head
fragments, the hydration-data script and the module-bootstrap script. -/
inductive HeadAction where
  | noHandler
  | removeOnly
  | insert (heads : List String) (modules : List SSRModule)
deriving DecidableEq

/-- What the rewriter does to an `ssr-body` marker element: no handler
registered, or replacement by the SSR output / failure fallback
(renderer.ts lines 108-112 and 131-135). -/
inductive BodyAction where
  | noHandler
  | replace (s : String)
deriving DecidableEq

/-- The per-document rewrite configuration: the two marker actions plus
the inputs the built-in handlers close over. -/
structure RewriteCfg where
  headAction : HeadAction
  bodyAction : BodyAction
  routes : List Route
  isDev : Bool
  hmrWebSocketUrl : Option String
  alephPkgUri : String

/-- A flat event-stream view of the template document: marker elements,
the head/body elements (start and end tags, so that `el.append` content
lands before the end tag), link and script elements (reduced to the
attributes the handlers read), and raw chunks. -/
inductive TItem where
  | raw (s : String)
  | ssrHeadMarker (orig : String)
  | ssrBodyMarker (orig : String)
  | linkTag (href : Option String)
  | scriptTag (src : Option String) (isModuleType : Bool)
  | headStart (orig : String)
  | headEnd (orig : String)
  | bodyStart (orig : String)
  | bodyEnd (orig : String)
deriving DecidableEq

/-- Emission for an `ssr-head` marker element.  With no handler the
element passes through untouched; the catch-branch handler removes it
without inserting anything; the success handler inserts the filled head
fragments, then (for a non-empty module list) the hydration-data and
module-bootstrap scripts, and removes the marker (lines 83-107). -/
def headMarkerEmit (a : HeadAction) (orig : String) : String :=
  match a with
  | .noHandler => orig
  | .removeOnly => ""
  | .insert heads modules =>
    String.join (heads.filter (fun h => !(h == ""))) ++
      (if modules.isEmpty then "" else ssrDataScript modules ++ routeModulesScript modules)

/-- Emission for an `ssr-body` marker element (lines 108-112, 131-135). -/
def bodyMarkerEmit (a : BodyAction) (orig : String) : String :=
  match a with
  | .noHandler => orig
  | .replace s => s

/-- The shared head/body handler of renderer.ts lines 189-214: on a
not-yet-handled visit it appends the route-manifest script when the route
table is non-empty, and in development mode additionally appends the
websocket-URL script (when configured) and the hot-reload bootstrap
script, setting the handled flag — the flag assignment sits inside the
`isDev` branch, exactly as in the source. -/
def commonHandler (cfg : RewriteCfg) (handled : Bool) : Bool × String :=
  if handled then (handled, "")
  else
    let manifest := if cfg.routes.isEmpty then "" else routeManifestScript cfg.routes
    if cfg.isDev then
      let ws :=
        match cfg.hmrWebSocketUrl with
        | some u => "<script>window.__hmrWebSocketUrl=" ++ jsonQuote u ++ ";</script>"
        | none => ""
      (true,
        manifest ++ ws ++
          "<script type=\"module\">import hot from \"" ++ toLocalPath cfg.alephPkgUri ++
          "/framework/core/hmr.ts\";hot(\"./index.html\").decline();</script>")
    else (handled, manifest)

/-- The link handler of renderer.ts lines 154-175: relative hrefs are
path-normalized, and in development mode a stylesheet link gains a
module-id attribute and is followed by a hot-reload bootstrap script
(element serialization reduced to the href attribute). -/
def linkHandlerEmit (cfg : RewriteCfg) (href? : Option String) : String :=
  match href? with
  | none => "<link>"
  | some href0 =>
    let isUrl := isLikelyHttpURL href0
    let href := if !isUrl then cleanPath href0 else href0
    if href.endsWith (".css") && !isUrl && cfg.isDev then
      let specifier := "." ++ href
      "<link href=\"" ++ href ++ "\" data-module-id=\"" ++ specifier ++ "\">" ++
        "<script type=\"module\">import hot from \"" ++ toLocalPath cfg.alephPkgUri ++
        "/framework/core/hmr.ts\";hot(" ++ jsonQuote specifier ++ ").accept();</script>"
    else "<link href=\"" ++ href ++ "\">"

/-- The script handler of renderer.ts lines 176-188: a relative src is
path-normalized, and the first module-type script is followed by a single
nomodule fallback script. -/
def scriptHandlerStep (cfg : RewriteCfg) (nomoduleInserted : Bool)
    (src? : Option String) (isModuleType : Bool) : Bool × String :=
  let base :=
    match src? with
    | some src =>
      let src := if !isLikelyHttpURL src then cleanPath src else src
      if isModuleType then "<script type=\"module\" src=\"" ++ src ++ "\"></script>"
      else "<script src=\"" ++ src ++ "\"></script>"
    | none =>
      if isModuleType then "<script type=\"module\"></script>" else "<script></script>"
  if isModuleType && !nomoduleInserted then
    (true, base ++ "<script nomodule src=\"" ++ cfg.alephPkgUri ++ "/lib/nomodule.js\"></script>")
  else (nomoduleInserted, base)

/-- Request-scoped rewriter state: the shared handler's handled flag, the
script handler's nomodule flag, and content queued by `el.append` for the
pending head/body end tags. -/
structure PassState where
  commonHandled : Bool
  nomoduleInserted : Bool
  headAppend : String
  bodyAppend : String
deriving DecidableEq

/-- One step of the single streaming pass: each template event is visited
by the handler bound to its selector, threading the request-scoped
state. -/
def renderStep (cfg : RewriteCfg) (st : PassState) : TItem → PassState × String
  | .raw s => (st, s)
  | .ssrHeadMarker orig => (st, headMarkerEmit cfg.headAction orig)
  | .ssrBodyMarker orig => (st, bodyMarkerEmit cfg.bodyAction orig)
  | .linkTag href? => (st, linkHandlerEmit cfg href?)
  | .scriptTag src? isModuleType =>
    let r := scriptHandlerStep cfg st.nomoduleInserted src? isModuleType
    ({ st with nomoduleInserted := r.1 }, r.2)
  | .headStart orig =>
    let r := commonHandler cfg st.commonHandled
    ({ st with commonHandled := r.1, headAppend := r.2 }, orig)
  | .headEnd orig => ({ st with headAppend := "" }, st.headAppend ++ orig)
  | .bodyStart orig =>
    let r := commonHandler cfg st.commonHandled
    ({ st with commonHandled := r.1, bodyAppend := r.2 }, orig)
  | .bodyEnd orig => ({ st with bodyAppend := "" }, st.bodyAppend ++ orig)

/-- The full streaming pass over the template (renderer.ts lines 216-222):
the concatenation, in emission order, of the chunks produced as the
rewrite proceeds, starting from fresh per-request handler state. -/
def renderTemplate (cfg : RewriteCfg) (tpl : List TItem) : String :=
  (tpl.foldl
    (fun acc item =>
      let r := renderStep cfg acc.1 item
      (r.1, acc.2 ++ r.2))
    (({ commonHandled := false, nomoduleInserted := false, headAppend := "", bodyAppend := "" }, ""))).2

/-- The behavior of the externally supplied render callback on this
request: it may return text (appending fragments to the head collection
as it runs), return a non-text value, or raise a failure carrying its
diagnostic trace (`error.stack`). -/
inductive RenderOutcome where
  | text (s : String) (heads : List String)
  | nonText (heads : List String)
  | failure (stack : String)

/-- The `RenderOptions` of renderer.ts lines 16-23, with the template
already decomposed into the event stream the rewriter consumes and the
custom rewriter map empty (no caller-supplied handlers).  The SSR handler
is modelled by its behavior on the resolved module list. -/
structure RenderOptions where
  indexHtml : List TItem
  routes : List Route
  isDev : Bool
  hmrWebSocketUrl : Option String
  ssrHandler : Option (List SSRModule → RenderOutcome)

/-- Ambient collaborators consumed by `fetch`: the static template's
modification time (`Deno.lstat`, as a UTC string), the style tags the
StyleCollector produces for the rendered module set (lines 53-81,
abstracted: they depend on the dependency graph and file system), and
`getAlephPkgUri()`. -/
structure RenderEnv where
  indexMtime : Option String
  styles : List String
  alephPkgUri : String

/-- The parts of the incoming request the renderer reads: the URL's host
and pathname, and the `If-Modified-Since` header. -/
structure ServerRequest where
  host : String
  pathname : String
  ifModifiedSince : Option String
deriving DecidableEq

/-- Which of the three response shapes `fetch` produced: the early
redirect of lines 42-46, the 304 of line 146, or a rendered page. -/
inductive RKind where
  | earlyRedirect
  | notModified
  | page
deriving DecidableEq

/-- The assembled response, together with the per-request trace the
claims inspect: which marker handlers were registered and whether the
render callback was invoked. -/
structure FetchOutcome where
  kind : RKind
  status : Nat
  body : Option String
  headers : List (String × String)
  headAction : HeadAction
  bodyAction : BodyAction
  renderRan : Bool
deriving DecidableEq

/-- The rewrite configuration assembled from the chosen marker actions
and the request's options and environment. -/
def mkCfg (ha : HeadAction) (ba : BodyAction) (env : RenderEnv) (opts : RenderOptions) :
    RewriteCfg :=
  { headAction := ha, bodyAction := ba, routes := opts.routes, isDev := opts.isDev,
    hmrWebSocketUrl := opts.hmrWebSocketUrl, alephPkgUri := env.alephPkgUri }

/-- The request pipeline of renderer.ts lines 26-225.  The SSR phase
either short-circuits on the first module redirect (lines 42-46) or
selects the marker actions, cache headers and `ssr` flag (lines 48-138);
when SSR did not run, the static-template freshness handling of lines
141-151 applies; finally the template is rewritten (lines 216-224) into
the response body. -/
def fetch (req : ServerRequest) (env : RenderEnv) (opts : RenderOptions) : FetchOutcome :=
  let headers0 : List (String × String) := [("Content-Type", "text/html; charset=utf-8")]
  let phase : Sum RedirectInfo (HeadAction × BodyAction × List (String × String) × Bool × Bool) :=
    match opts.ssrHandler with
    | none => .inr (.noHandler, .noHandler, headers0, false, false)
    | some handler =>
      let modules := initSSR req.host req.pathname opts.routes
      match firstRedirect modules with
      | some r => .inl r
      | none =>
        match handler modules with
        | .text s heads =>
          let finalHeads := heads ++ (if modules.isEmpty then [] else env.styles)
          .inr (.insert finalHeads modules, .replace s,
            headers0 ++ [("Cache-Control", cacheControlValue modules)], true, true)
        | .nonText _ => .inr (.noHandler, .noHandler, headers0, true, false)
        | .failure stack =>
          .inr (.removeOnly, .replace ("<code><pre>" ++ stack ++ "</pre></code>"),
            headers0 ++ [("Cache-Control", "public, max-age=0, must-revalidate")], true, true)
  match phase with
  | .inl r => ⟨.earlyRedirect, r.status, none, r.headers, .noHandler, .noHandler, false⟩
  | .inr (ha, ba, headers, renderRan, ssr) =>
    if !ssr then
      match env.indexMtime with
      | some m =>
        if req.ifModifiedSince = some m then
          ⟨.notModified, 304, none, [], ha, ba, renderRan⟩
        else
          ⟨.page, 200, some (renderTemplate (mkCfg ha ba env opts) opts.indexHtml),
            headers ++ [("Last-Modified", m), ("Cache-Control", "public, max-age=0, must-revalidate")],
            ha, ba, renderRan⟩
      | none =>
        ⟨.page, 200, some (renderTemplate (mkCfg ha ba env opts) opts.indexHtml),
          headers ++ [("Cache-Control", "public, max-age=0, must-revalidate")],
          ha, ba, renderRan⟩
    else
      ⟨.page, 200, some (renderTemplate (mkCfg ha ba env opts) opts.indexHtml),
        headers, ha, ba, renderRan⟩

/-- Fixture: a surviving module carrying only a `dataCacheTtl`. -/
def ttlModule (t : Option Int) : SSRModule :=
  { url := { pathname := "/", search := "" }, filename := "./routes/index.tsx",
    defaultExport := some (), dataCacheTtl := t }

/-- Fixture: a base module before data-fetch interpretation. -/
def missingLocationBase : SSRModule :=
  { url := { pathname := "/x", search := "" }, filename := "./routes/x.tsx",
    defaultExport := some () }

/-- Fixture: a leaf route whose data fetcher returns a 302 with a
`Location` header. -/
def redirRoute : Route :=
  { exec := fun h p =>
      if p == "/x" then some { host := h, pathnameInput := p, groups := [] } else none,
    load := { dataConfig := some { cacheTtl := none,
                                   get := some (.response { status := 302, bodyText := "",
                                                            jsonBody := none,
                                                            headers := [("Location", "/login")] }) },
              defaultExport := some () },
    meta := { patternPathname := "/x", nesting := false, filename := "./routes/x.tsx" } }

/-- Fixture: a catch-all leaf route matching every pathname
(the pattern `/:path*`). -/
def catchAllRoute : Route :=
  { exec := fun h p => some { host := h, pathnameInput := p, groups := [] },
    load := { dataConfig := none, defaultExport := some () },
    meta := { patternPathname := "/:path*", nesting := false,
              filename := "./routes/catchall.tsx" } }

/-- Fixture: the root-layout route. -/
def appLayoutRoute : Route :=
  { exec := fun h p =>
      if p == "/_app" then some { host := h, pathnameInput := p, groups := [] } else none,
    load := { dataConfig := none, defaultExport := some () },
    meta := { patternPathname := "/_app", nesting := true, filename := "./routes/_app.tsx" } }

/-- Fixture: a leaf route for the site root. -/
def indexLeafRoute : Route :=
  { exec := fun h p =>
      if p == "/" then some { host := h, pathnameInput := p, groups := [] } else none,
    load := { dataConfig := none, defaultExport := some () },
    meta := { patternPathname := "/", nesting := false, filename := "./routes/index.tsx" } }

/-- Fixture: the not-found route. -/
def notFoundRoute : Route :=
  { exec := fun h p =>
      if p == "/_404" then some { host := h, pathnameInput := p, groups := [] } else none,
    load := { dataConfig := none, defaultExport := some () },
    meta := { patternPathname := "/_404", nesting := false, filename := "./routes/_404.tsx" } }

/-- Fixture: an inert route used only to make the route table non-empty. -/
def plainRoute : Route :=
  { exec := fun _ _ => none,
    load := { dataConfig := none, defaultExport := some () },
    meta := { patternPathname := "/about", nesting := false, filename := "./routes/about.tsx" } }

/-- Fixture: a production-mode rewrite configuration with a non-empty
route table and no SSR marker handlers. -/
def prodCfg : RewriteCfg :=
  { headAction := .noHandler, bodyAction := .noHandler, routes := [plainRoute], isDev := false,
    hmrWebSocketUrl := none, alephPkgUri := "https://deno.land/x/aleph" }

/-- Fixture: a render callback that returns text. -/
def okHandler : List SSRModule → RenderOutcome := fun _ => .text ("<div>ok</div>") []

/-- Fixture: a render callback that raises. -/
def failHandler : List SSRModule → RenderOutcome := fun _ => .failure ("boom at render")

/-- Fixture: a route with a redirecting data fetcher but no default
export. -/
def noExportRedirRoute : Route :=
  { exec := fun h p =>
      if p == "/y" then some { host := h, pathnameInput := p, groups := [] } else none,
    load := { dataConfig := some { cacheTtl := none,
                                   get := some (.response { status := 307, bodyText := "",
                                                            jsonBody := none,
                                                            headers := [("Location", "/z")] }) },
              defaultExport := none },
    meta := { patternPathname := "/y", nesting := false, filename := "./routes/y.tsx" } }

/-- Fixture request for the redirect scenarios. -/
def req3 : ServerRequest := { host := "localhost", pathname := "/x", ifModifiedSince := none }

/-- Fixture environment without a template modification time. -/
def env3 : RenderEnv :=
  { indexMtime := none, styles := [], alephPkgUri := "https://deno.land/x/aleph" }

/-- Fixture options with one redirecting route. -/
def opts3 : RenderOptions :=
  { indexHtml := [], routes := [redirRoute], isDev := false, hmrWebSocketUrl := none,
    ssrHandler := some okHandler }

/-- Fixture template containing both marker elements. -/
def tpl5 : List TItem :=
  [.raw ("<html><head>"), .ssrHeadMarker ("<ssr-head></ssr-head>"), .raw ("</head><body>"),
   .ssrBodyMarker ("<ssr-body></ssr-body>"), .raw ("</body></html>")]

/-- Fixture options with a failing render callback. -/
def opts5 : RenderOptions :=
  { indexHtml := tpl5, routes := [], isDev := false, hmrWebSocketUrl := none,
    ssrHandler := some failHandler }

/-- Fixture request carrying a matching `If-Modified-Since` header. -/
def req10 : ServerRequest :=
  { host := "localhost", pathname := "/", ifModifiedSince := some ("Wed, 01 Jan 2025 00:00:00 GMT") }

/-- Fixture environment with a known template modification time. -/
def env10 : RenderEnv :=
  { indexMtime := some ("Wed, 01 Jan 2025 00:00:00 GMT"), styles := [],
    alephPkgUri := "https://deno.land/x/aleph" }

/-- Fixture options without an SSR handler. -/
def opts10 : RenderOptions :=
  { indexHtml := [], routes := [], isDev := false, hmrWebSocketUrl := none, ssrHandler := none }

/-- Fixture request for the dropped-redirect scenario. -/
def req9 : ServerRequest := { host := "localhost", pathname := "/y", ifModifiedSince := none }

/-- Fixture options whose only route redirects but has no default export. -/
def opts9 : RenderOptions :=
  { indexHtml := [], routes := [noExportRedirRoute], isDev := false, hmrWebSocketUrl := none,
    ssrHandler := some okHandler }

theorem foldl_min_le_init (t : List Int) : ∀ h : Int, t.foldl min h ≤ h := by
  induction t with
  | nil => intro h; simp
  | cons a t ih =>
    intro h
    simp only [List.foldl_cons]
    exact le_trans (ih (min h a)) (min_le_left h a)

theorem foldl_min_le_mem (t : List Int) : ∀ h x : Int, x ∈ t → t.foldl min h ≤ x := by
  induction t with
  | nil => intro h x hx; cases hx
  | cons a t ih =>
    intro h x hx
    simp only [List.foldl_cons]
    cases hx with
    | head => exact le_trans (foldl_min_le_init t (min h a)) (min_le_right h a)
    | tail _ hm => exact ih (min h a) x hm

theorem foldl_min_mem (t : List Int) : ∀ h : Int, t.foldl min h ∈ h :: t := by
  induction t with
  | nil => intro h; simp
  | cons a t ih =>
    intro h
    simp only [List.foldl_cons]
    have hmem := ih (min h a)
    rcases List.mem_cons.mp hmem with h1 | h1
    · rcases min_choice h a with hc | hc
      · rw [h1, hc]
        exact List.mem_cons_self _ _
      · rw [h1, hc]
        exact List.mem_cons_of_mem _ (List.mem_cons_self _ _)
    · exact List.mem_cons_of_mem _ (List.mem_cons_of_mem _ h1)

theorem jsMathMin_mem : ∀ (l : List Int), l ≠ [] → jsMathMin l ∈ l
  | [], h => absurd rfl h
  | _ :: t, _ => foldl_min_mem t _

theorem jsMathMin_le (l : List Int) (hne : l ≠ []) : ∀ x ∈ l, jsMathMin l ≤ x := by
  match l with
  | [] => exact absurd rfl hne
  | a :: t =>
    intro x hx
    rcases List.mem_cons.mp hx with h1 | h1
    · rw [h1]
      exact foldl_min_le_init t a
    · exact foldl_min_le_mem t a x h1

theorem jsMathMin_perm (l₁ l₂ : List Int) (hp : l₁.Perm l₂) (h1 : l₁ ≠ []) :
    jsMathMin l₁ = jsMathMin l₂ := by
  have h2 : l₂ ≠ [] := by
    intro h
    rw [h] at hp
    exact h1 hp.eq_nil
  have m1 := jsMathMin_mem l₁ h1
  have m2 := jsMathMin_mem l₂ h2
  exact le_antisymm
    (jsMathMin_le l₁ h1 _ (hp.mem_iff.mpr m2))
    (jsMathMin_le l₂ h2 _ (hp.mem_iff.mp m1))

theorem cacheControlValue_perm (ms₁ ms₂ : List SSRModule) (hp : ms₁.Perm ms₂) :
    cacheControlValue ms₁ = cacheControlValue ms₂ := by
  have tp : (positiveTtls ms₁).Perm (positiveTtls ms₂) := hp.filterMap _
  have hlen := tp.length_eq
  unfold cacheControlValue
  rw [← hlen]
  by_cases hgt : 1 < (positiveTtls ms₁).length
  · rw [if_pos hgt, if_pos hgt]
    have hne : positiveTtls ms₁ ≠ [] := by
      intro h
      rw [h] at hgt
      simp at hgt
    rw [jsMathMin_perm _ _ tp hne]
  · rw [if_neg hgt, if_neg hgt]
    by_cases h1 : (positiveTtls ms₁).length = 1
    · rw [if_pos h1, if_pos h1]
      obtain ⟨a, ha⟩ := List.length_eq_one.mp h1
      have h2 : positiveTtls ms₂ = [a] := List.perm_singleton.mp (ha ▸ tp).symm
      rw [ha, h2]
    · rw [if_neg h1, if_neg h1]

theorem applyFetcherResult_exclusive (m : SSRModule) (v : FetcherResult)
    (hr : m.redirect = none) (he : m.error = none) :
    ¬((applyFetcherResult m v).redirect.isSome = true ∧
      (applyFetcherResult m v).error.isSome = true) := by
  cases v with
  | nonResponse => simp [applyFetcherResult, hr, he]
  | response res =>
    simp only [applyFetcherResult]
    by_cases h4 : 400 ≤ res.status
    · rw [if_pos h4]
      simp [hr]
    · rw [if_neg h4]
      by_cases h3 : 300 ≤ res.status
      · rw [if_pos h3]
        by_cases hloc : res.headers.any (fun kv => kv.1 == "Location") = true
        · rw [if_pos hloc]
          simp [he]
        · rw [if_neg hloc]
          simp [hr]
      · rw [if_neg h3]
        cases hj : res.jsonBody with
        | some d => simp [hj, hr, he]
        | none => simp [hj, hr]

theorem buildModule_exclusive (ret : URLPatternResult) (route : Route) :
    ¬((buildModule ret route).redirect.isSome = true ∧
      (buildModule ret route).error.isSome = true) := by
  simp only [buildModule]
  cases hg : route.load.dataConfig.bind (fun dc => dc.get) with
  | none => simp
  | some v => exact applyFetcherResult_exclusive _ v rfl rfl

theorem firstRedirect_isSome_of_exists (l : List SSRModule)
    (h : ∃ m ∈ l, m.redirect.isSome = true) : (firstRedirect l).isSome = true := by
  induction l with
  | nil =>
    obtain ⟨m, hm, _⟩ := h
    cases hm
  | cons a t ih =>
    obtain ⟨m, hm, hr⟩ := h
    rcases List.mem_cons.mp hm with h1 | h1
    · subst h1
      cases ha : m.redirect with
      | none =>
        rw [ha] at hr
        simp at hr
      | some r => simp [firstRedirect, List.findSome?, ha]
    · cases ha : a.redirect with
      | some r => simp [firstRedirect, List.findSome?, ha]
      | none =>
        have hrec := ih ⟨m, h1, hr⟩
        simp only [firstRedirect, List.findSome?, ha]
        exact hrec

theorem firstRedirect_mem (l : List SSRModule) (r : RedirectInfo)
    (h : firstRedirect l = some r) : ∃ m ∈ l, m.redirect = some r := by
  induction l with
  | nil => simp [firstRedirect, List.findSome?] at h
  | cons a t ih =>
    cases ha : a.redirect with
    | some r0 =>
      simp only [firstRedirect, List.findSome?, ha] at h
      exact ⟨a, List.mem_cons_self _ _, by rw [ha, h]⟩
    | none =>
      simp only [firstRedirect, List.findSome?, ha] at h
      obtain ⟨m, hm, hr⟩ := ih h
      exact ⟨m, List.mem_cons_of_mem _ hm, hr⟩

/-- Claim C2 (confirmed): the Cache-Control value of a successful SSR
response is computed from the positive `dataCacheTtl` values: with more
than one such value, max-age is their minimum; with exactly one, max-age
is that value; with none, the header is
"public, max-age=0, must-revalidate".  The result is independent of
module order, and in the success branch of `fetch` the response headers
carry exactly this value. -/
theorem claim_C2 (ms ms' : List SSRModule) (hp : ms.Perm ms') :
    cacheControlValue ms = cacheControlValue ms' ∧
    (positiveTtls ms = [] →
      cacheControlValue ms = "public, max-age=0, must-revalidate") ∧
    (∀ t : Int, positiveTtls ms = [t] →
      cacheControlValue ms = "public, max-age=" ++ toString t) ∧
    (1 < (positiveTtls ms).length →
      cacheControlValue ms = "public, max-age=" ++ toString (jsMathMin (positiveTtls ms)) ∧
      jsMathMin (positiveTtls ms) ∈ positiveTtls ms ∧
      ∀ t ∈ positiveTtls ms, jsMathMin (positiveTtls ms) ≤ t) ∧
    (∀ (req : ServerRequest) (env : RenderEnv) (opts : RenderOptions)
        (handler : List SSRModule → RenderOutcome) (s : String) (heads : List String),
      opts.ssrHandler = some handler →
      firstRedirect (initSSR req.host req.pathname opts.routes) = none →
      handler (initSSR req.host req.pathname opts.routes) = .text s heads →
      (fetch req env opts).headers =
        [("Content-Type", "text/html; charset=utf-8"),
         ("Cache-Control", cacheControlValue (initSSR req.host req.pathname opts.routes))]) := by
  refine ⟨cacheControlValue_perm ms ms' hp, ?_, ?_, ?_, ?_⟩
  · intro h
    simp [cacheControlValue, h]
  · intro t ht
    simp [cacheControlValue, ht]
  · intro hgt
    have hne : positiveTtls ms ≠ [] := by
      intro h
      rw [h] at hgt
      simp at hgt
    exact ⟨by simp [cacheControlValue, if_pos hgt], jsMathMin_mem _ hne, jsMathMin_le _ hne⟩
  · intro req env opts handler s heads hh hred htext
    simp [fetch, hh, hred, htext]

/-- Claim C2 witness: TTLs [30, 10, 20] yield max-age 10, independent of
module order. -/
theorem claim_C2_witness :
    cacheControlValue [ttlModule (some 30), ttlModule (some 10), ttlModule (some 20)] =
      cacheControlValue [ttlModule (some 10), ttlModule (some 20), ttlModule (some 30)] ∧
    cacheControlValue [ttlModule (some 30), ttlModule (some 10), ttlModule (some 20)] =
      "public, max-age=10" ∧
    cacheControlValue [] = "public, max-age=0, must-revalidate" := by
  have h := claim_C2 [ttlModule (some 30), ttlModule (some 10), ttlModule (some 20)]
    [ttlModule (some 10), ttlModule (some 20), ttlModule (some 30)] (by decide)
  exact ⟨h.1, by decide, by decide⟩

/-- Claim C4 (corrected): the data-fetch outcome interpretation, with the
missing-Location message as the code writes it — "Missing the `Location`
header", backticks included — rather than the claim's
"Missing the Location header". -/
theorem claim_C4_amended (m : SSRModule) (res : FetchResponse) :
    (400 ≤ res.status →
      applyFetcherResult m (.response res) =
        { m with error := some { message := res.bodyText, status := res.status } }) ∧
    (300 ≤ res.status → res.status < 400 →
      res.headers.any (fun kv => kv.1 == "Location") = true →
      applyFetcherResult m (.response res) =
        { m with redirect := some { headers := res.headers, status := res.status } }) ∧
    (300 ≤ res.status → res.status < 400 →
      res.headers.any (fun kv => kv.1 == "Location") = false →
      applyFetcherResult m (.response res) =
        { m with error := some { message := "Missing the `Location` header", status := 400 } }) ∧
    (res.status < 300 → ∀ d : String, res.jsonBody = some d →
      applyFetcherResult m (.response res) = { m with data := some d }) ∧
    (res.status < 300 → res.jsonBody = none →
      applyFetcherResult m (.response res) =
        { m with error := some { message := "Data must be valid JSON", status := 400 } }) := by
  refine ⟨?_, ?_, ?_, ?_, ?_⟩
  · intro h4
    simp only [applyFetcherResult]
    rw [if_pos h4]
  · intro h3 h4 hloc
    simp only [applyFetcherResult]
    rw [if_neg (by omega), if_pos h3, if_pos hloc]
  · intro h3 h4 hloc
    simp only [applyFetcherResult]
    rw [if_neg (by omega), if_pos h3, if_neg (by simp [hloc])]
  · intro h3 d hd
    simp only [applyFetcherResult]
    rw [if_neg (by omega), if_neg (by omega)]
    simp [hd]
  · intro h3 hd
    simp only [applyFetcherResult]
    rw [if_neg (by omega), if_neg (by omega)]
    simp [hd]

/-- Claim C4 counterexample: a 302 response without a Location header
sets the error message "Missing the `Location` header" (with backticks),
not the claim's "Missing the Location header". -/
theorem claim_C4_counterexample :
    (applyFetcherResult missingLocationBase
        (.response { status := 302, bodyText := "", jsonBody := none, headers := [] })).error =
      some { message := "Missing the `Location` header", status := 400 } ∧
    (applyFetcherResult missingLocationBase
        (.response { status := 302, bodyText := "", jsonBody := none, headers := [] })).error ≠
      some { message := "Missing the Location header", status := 400 } := by
  decide

/-- Claim C4 witness: the amended theorem applied to the 302-without-
Location response. -/
theorem claim_C4_witness :
    applyFetcherResult missingLocationBase
        (.response { status := 302, bodyText := "", jsonBody := none, headers := [] }) =
      { missingLocationBase with
          error := some { message := "Missing the `Location` header", status := 400 } } :=
  (claim_C4_amended missingLocationBase
      { status := 302, bodyText := "", jsonBody := none, headers := [] }).2.2.1
    (by decide) (by decide) (by decide)

/-- Claim C6 (confirmed): for every SSRModule produced by `initSSR`, the
redirect and error fields are never both set. -/
theorem claim_C6 (host pathname : String) (routes : List Route) :
    ∀ m ∈ initSSR host pathname routes,
      ¬(m.redirect.isSome = true ∧ m.error.isSome = true) := by
  intro m hm
  have hm' := (List.mem_filter.mp hm).1
  obtain ⟨x, _, he⟩ := List.mem_map.mp hm'
  rw [← he]
  exact buildModule_exclusive x.1 x.2

/-- Claim C6 witness: the redirect-producing module of `redirRoute` has
its redirect set and its error unset. -/
theorem claim_C6_witness :
    ¬((buildModule { host := "localhost", pathnameInput := "/x", groups := [] }
        redirRoute).redirect.isSome = true ∧
      (buildModule { host := "localhost", pathnameInput := "/x", groups := [] }
        redirRoute).error.isSome = true) :=
  claim_C6 "localhost" "/x" [redirRoute] _ (by decide)

/-- Claim C1 (corrected): when a root-layout route exists, the renderer
prepends the synthesized root-layout match only when the first recorded
match's matched input pathname differs from "/_app" — the guard on
renderer.ts line 268 compares the matched input path, not the matched
route — so the first element is the root-layout match in exactly that
case, and the list is left unchanged when the first match's input
pathname is already "/_app". -/
theorem claim_C1_amended (host pathname : String) (routes : List Route) (appRoute : Route)
    (m0 : URLPatternResult × Route) (rest : List (URLPatternResult × Route))
    (happ : routes.find? (fun r => r.meta.patternPathname == "/_app") = some appRoute)
    (hbase : withNotFound host routes (rawMatches host pathname routes) = m0 :: rest) :
    (m0.1.pathnameInput ≠ "/_app" →
      matchRoutes host pathname routes =
        (createStaticURLPatternResult host ("/_app"), appRoute) :: m0 :: rest) ∧
    (m0.1.pathnameInput = "/_app" → matchRoutes host pathname routes = m0 :: rest) := by
  have hne : ¬routes.isEmpty = true := by
    cases routes with
    | nil => simp at happ
    | cons a l => simp
  constructor
  · intro hneq
    unfold matchRoutes
    rw [if_neg hne, hbase]
    simp only [withApp]
    rw [if_pos (by simp [hneq]), happ]
  · intro heq
    unfold matchRoutes
    rw [if_neg hne, hbase]
    simp only [withApp]
    rw [if_neg (by simp [heq])]

/-- Claim C1 counterexample: with a catch-all leaf route ahead of the
root-layout route and a request for the literal path "/_app", both routes
match with input pathname "/_app", the prepend guard is skipped, and the
first element of the match list is the catch-all match — not the
root-layout match — even though a root-layout route exists. -/
theorem claim_C1_counterexample :
    (∃ r ∈ [catchAllRoute, appLayoutRoute], r.meta.patternPathname = "/_app") ∧
    ((matchRoutes "localhost" "/_app" [catchAllRoute, appLayoutRoute]).head?.map
        (fun m => m.2.meta.patternPathname)) = some "/:path*" ∧
    ("/:path*" : String) ≠ "/_app" := by
  refine ⟨⟨appLayoutRoute, by simp, rfl⟩, rfl, by decide⟩

/-- Claim C1 witness: in the ordinary case (request "/" matched by a leaf
route, root-layout route present) the synthesized root-layout match is
prepended and heads the list. -/
theorem claim_C1_witness :
    matchRoutes "localhost" "/" [indexLeafRoute, appLayoutRoute] =
      (createStaticURLPatternResult "localhost" ("/_app"), appLayoutRoute) ::
        ({ host := "localhost", pathnameInput := "/", groups := [] }, indexLeafRoute) :: [] :=
  (claim_C1_amended "localhost" "/" [indexLeafRoute, appLayoutRoute] appLayoutRoute
      ({ host := "localhost", pathnameInput := "/", groups := [] }, indexLeafRoute) []
      rfl rfl).1 (by decide)

/-- Claim C7 (corrected): when the route-table scan records no leaf match
and a "/_404" route exists, exactly one synthetic not-found match is
appended — but it is anchored at the static pathname "/_404"
(renderer.ts line 262), not at the request path. -/
theorem claim_C7_amended (host pathname : String) (routes : List Route) (r404 : Route)
    (hleaf : ((rawMatches host pathname routes).filter (fun m => !m.2.meta.nesting)).length = 0)
    (h404 : routes.find? (fun r => r.meta.patternPathname == "/_404") = some r404) :
    withNotFound host routes (rawMatches host pathname routes) =
      rawMatches host pathname routes ++ [(createStaticURLPatternResult host ("/_404"), r404)] ∧
    (createStaticURLPatternResult host ("/_404")).pathnameInput = "/_404" ∧
    matchRoutes host pathname routes =
      withApp host routes
        (rawMatches host pathname routes ++
          [(createStaticURLPatternResult host ("/_404"), r404)]) := by
  have hne : ¬routes.isEmpty = true := by
    cases routes with
    | nil => simp at h404
    | cons a l => simp
  have h1 : withNotFound host routes (rawMatches host pathname routes) =
      rawMatches host pathname routes ++
        [(createStaticURLPatternResult host ("/_404"), r404)] := by
    unfold withNotFound
    rw [if_pos hleaf, h404]
  refine ⟨h1, rfl, ?_⟩
  unfold matchRoutes
  rw [if_neg hne, h1]

/-- Claim C7 counterexample: a request for "/nope" that falls through to
the not-found route produces a synthetic match anchored at "/_404", not
at the request path "/nope". -/
theorem claim_C7_counterexample :
    ((matchRoutes "localhost" "/nope" [notFoundRoute]).map (fun m => m.1.pathnameInput)) =
      ["/_404"] ∧
    ("/_404" : String) ≠ "/nope" := by
  refine ⟨rfl, by decide⟩

/-- Claim C7 witness: the amended theorem applied to the "/nope" request
against the route table containing only the not-found route. -/
theorem claim_C7_witness :
    withNotFound "localhost" [notFoundRoute] (rawMatches "localhost" "/nope" [notFoundRoute]) =
      rawMatches "localhost" "/nope" [notFoundRoute] ++
        [(createStaticURLPatternResult "localhost" ("/_404"), notFoundRoute)] :=
  (claim_C7_amended "localhost" "/nope" [notFoundRoute] notFoundRoute rfl rfl).1

/-- Claim C3 (confirmed): when any module returned by `initSSR` carries a
redirect, `fetch` returns immediately: the response has a null body and
exactly the first redirect's status and headers, the render callback is
not invoked (`renderRan = false`), no marker handler is registered, and
the result is independent of the render callback, the template and the
collected styles — so no template rewriting or cache-header computation
takes place. -/
theorem claim_C3 (req : ServerRequest) (env : RenderEnv) (opts : RenderOptions)
    (handler : List SSRModule → RenderOutcome)
    (hh : opts.ssrHandler = some handler)
    (hex : ∃ m ∈ initSSR req.host req.pathname opts.routes, m.redirect.isSome = true) :
    ∃ r : RedirectInfo,
      firstRedirect (initSSR req.host req.pathname opts.routes) = some r ∧
      (∃ m ∈ initSSR req.host req.pathname opts.routes, m.redirect = some r) ∧
      fetch req env opts =
        ⟨.earlyRedirect, r.status, none, r.headers, .noHandler, .noHandler, false⟩ ∧
      (∀ (handler₂ : List SSRModule → RenderOutcome) (tpl₂ : List TItem)
          (styles₂ : List String),
        fetch req { env with styles := styles₂ }
            { opts with ssrHandler := some handler₂, indexHtml := tpl₂ } =
          fetch req env opts) := by
  obtain ⟨r, hr⟩ := Option.isSome_iff_exists.mp (firstRedirect_isSome_of_exists _ hex)
  refine ⟨r, hr, firstRedirect_mem _ r hr, ?_, ?_⟩
  · simp [fetch, hh, hr]
  · intro handler₂ tpl₂ styles₂
    simp [fetch, hh, hr]

/-- Claim C3 witness: the 302 data redirect of `redirRoute` short-circuits
`fetch` into an empty-body 302 carrying the Location header. -/
theorem claim_C3_witness :
    fetch req3 env3 opts3 =
      ⟨.earlyRedirect, 302, none, [("Location", "/login")], .noHandler, .noHandler, false⟩ := by
  obtain ⟨r, hr, _, hfetch, _⟩ := claim_C3 req3 env3 opts3 okHandler rfl
    ⟨buildModule { host := "localhost", pathnameInput := "/x", groups := [] } redirRoute,
      by decide, by decide⟩
  have h2 : firstRedirect (initSSR req3.host req3.pathname opts3.routes) =
      some { headers := [("Location", "/login")], status := 302 } := by decide
  rw [h2] at hr
  have h3 : r = { headers := [("Location", "/login")], status := 302 } :=
    (Option.some.inj hr).symm
  rw [h3] at hfetch
  exact hfetch

/-- Claim C5 (confirmed): when the render callback raises a failure, the
ssr-body marker is replaced by the failure's trace wrapped in
`<code><pre>`, the ssr-head marker is removed without inserting any
captured head fragments, and the response carries exactly the
non-cacheable Cache-Control header, regardless of module TTLs. -/
theorem claim_C5 (req : ServerRequest) (env : RenderEnv) (opts : RenderOptions)
    (handler : List SSRModule → RenderOutcome) (stack : String)
    (hh : opts.ssrHandler = some handler)
    (hred : firstRedirect (initSSR req.host req.pathname opts.routes) = none)
    (hfail : handler (initSSR req.host req.pathname opts.routes) = .failure stack) :
    fetch req env opts =
      ⟨.page, 200,
        some (renderTemplate
          (mkCfg .removeOnly (.replace ("<code><pre>" ++ stack ++ "</pre></code>")) env opts)
          opts.indexHtml),
        [("Content-Type", "text/html; charset=utf-8"),
         ("Cache-Control", "public, max-age=0, must-revalidate")],
        .removeOnly, .replace ("<code><pre>" ++ stack ++ "</pre></code>"), true⟩ ∧
    (∀ (st : PassState) (orig : String),
      renderStep (mkCfg .removeOnly (.replace ("<code><pre>" ++ stack ++ "</pre></code>")) env opts)
          st (.ssrBodyMarker orig) = (st, "<code><pre>" ++ stack ++ "</pre></code>")) ∧
    (∀ (st : PassState) (orig : String),
      renderStep (mkCfg .removeOnly (.replace ("<code><pre>" ++ stack ++ "</pre></code>")) env opts)
          st (.ssrHeadMarker orig) = (st, "")) := by
  refine ⟨?_, ?_, ?_⟩
  · simp [fetch, hh, hred, hfail]
  · intro st orig
    rfl
  · intro st orig
    rfl

/-- Claim C5 witness: a callback failing with "boom at render" yields a
body whose ssr-body marker became the code block and whose ssr-head
marker vanished, under the non-cacheable header. -/
theorem claim_C5_witness :
    (fetch req3 env3 opts5).body =
      some ("<html><head></head><body><code><pre>boom at render</pre></code></body></html>") ∧
    (fetch req3 env3 opts5).headers =
      [("Content-Type", "text/html; charset=utf-8"),
       ("Cache-Control", "public, max-age=0, must-revalidate")] := by
  have h := claim_C5 req3 env3 opts5 failHandler ("boom at render") rfl (by decide) rfl
  rw [h.1]
  exact ⟨by decide, rfl⟩

/-- Claim C8 (code_bug): in production mode (`isDev = false`) with a
non-empty route table, the shared head/body handler appends the
route-manifest script at BOTH the head and the body visit: the
`handled` guard is assigned only inside the `isDev` branch (renderer.ts
line 211), so outside development it never trips and the early return of
line 192 is dead code.  A document pass over a template with both a head
and a body element therefore emits the manifest twice. -/
theorem claim_C8_bug :
    commonHandler prodCfg false = (false, routeManifestScript [plainRoute]) ∧
    routeManifestScript [plainRoute] ≠ "" ∧
    renderTemplate prodCfg
        [.headStart ("<head>"), .headEnd ("</head>"),
         .bodyStart ("<body>"), .bodyEnd ("</body>")] =
      "<head>" ++ routeManifestScript [plainRoute] ++ "</head>" ++
        "<body>" ++ routeManifestScript [plainRoute] ++ "</body>" := by
  refine ⟨rfl, by decide, by decide⟩

/-- Claim C9 (confirmed): a match whose built module redirects but has no
default export is removed by the `defaultExport` filter inside `initSSR`,
before `fetch` scans for redirects: every module `fetch` sees has a
defined default export, the dropped module is absent, and when no
surviving module redirects the request is never answered with a redirect
— the render callback runs over the surviving modules instead. -/
theorem claim_C9 (host pathname : String) (routes : List Route)
    (ret : URLPatternResult) (route : Route)
    (hmem : (ret, route) ∈ matchRoutes host pathname routes)
    (hredir : (buildModule ret route).redirect.isSome = true)
    (hdef : (buildModule ret route).defaultExport = none) :
    buildModule ret route ∉ initSSR host pathname routes ∧
    (∀ m ∈ initSSR host pathname routes, m.defaultExport.isSome = true) ∧
    (∀ (req : ServerRequest) (env : RenderEnv) (opts : RenderOptions)
        (handler : List SSRModule → RenderOutcome),
      req.host = host → req.pathname = pathname → opts.routes = routes →
      opts.ssrHandler = some handler →
      firstRedirect (initSSR host pathname routes) = none →
      (fetch req env opts).kind ≠ RKind.earlyRedirect ∧
        (fetch req env opts).renderRan = true) := by
  have hall : ∀ m ∈ initSSR host pathname routes, m.defaultExport.isSome = true := by
    intro m hm
    exact (List.mem_filter.mp hm).2
  refine ⟨?_, hall, ?_⟩
  · intro hmem'
    have hsome := hall _ hmem'
    rw [hdef] at hsome
    simp at hsome
  · intro req env opts handler hhost hpath hroutes hh hred
    subst hhost
    subst hpath
    subst hroutes
    cases hcase : handler (initSSR req.host req.pathname opts.routes) with
    | text s heads =>
      constructor
      · simp [fetch, hh, hred, hcase]
      · simp [fetch, hh, hred, hcase]
    | nonText heads =>
      cases hmt : env.indexMtime with
      | none =>
        constructor
        · simp [fetch, hh, hred, hcase, hmt]
        · simp [fetch, hh, hred, hcase, hmt]
      | some m =>
        by_cases hims : req.ifModifiedSince = some m
        · constructor
          · simp [fetch, hh, hred, hcase, hmt, hims]
          · simp [fetch, hh, hred, hcase, hmt, hims]
        · constructor
          · simp [fetch, hh, hred, hcase, hmt, hims]
          · simp [fetch, hh, hred, hcase, hmt, hims]
    | failure stack =>
      constructor
      · simp [fetch, hh, hred, hcase]
      · simp [fetch, hh, hred, hcase]

/-- Claim C9 witness: the redirecting, export-less route of
`noExportRedirRoute` matches "/y"; its module is dropped, and `fetch`
renders instead of redirecting. -/
theorem claim_C9_witness :
    buildModule { host := "localhost", pathnameInput := "/y", groups := [] }
        noExportRedirRoute ∉ initSSR "localhost" "/y" [noExportRedirRoute] ∧
    (fetch req9 env3 opts9).kind ≠ RKind.earlyRedirect ∧
    (fetch req9 env3 opts9).renderRan = true := by
  have e : matchRoutes "localhost" "/y" [noExportRedirRoute] =
      [({ host := "localhost", pathnameInput := "/y", groups := [] }, noExportRedirRoute)] := rfl
  have hmem : (({ host := "localhost", pathnameInput := "/y", groups := [] } :
      URLPatternResult), noExportRedirRoute) ∈
      matchRoutes "localhost" "/y" [noExportRedirRoute] := by
    rw [e]
    exact List.mem_singleton.mpr rfl
  have h := claim_C9 "localhost" "/y" [noExportRedirRoute]
    { host := "localhost", pathnameInput := "/y", groups := [] } noExportRedirRoute
    hmem (by decide) (by decide)
  have h3 := h.2.2 req9 env3 opts9 okHandler rfl rfl rfl rfl (by decide)
  exact ⟨h.1, h3.1, h3.2⟩

/-- Claim C10 (confirmed): when SSR does not run — no handler supplied,
or the callback returns a non-text value without raising — no marker
handler is registered, both marker elements pass through the rewrite
untouched, and the response takes the static-template path: a matching
`If-Modified-Since` yields an empty 304, otherwise the page carries
`Last-Modified` (when available) and the non-cacheable Cache-Control
header; no hydration-data script, bootstrap script or style fragment can
be emitted because the ssr-head insertion handler is absent. -/
theorem claim_C10 (req : ServerRequest) (env : RenderEnv) (opts : RenderOptions)
    (h : opts.ssrHandler = none ∨
      ∃ (handler : List SSRModule → RenderOutcome) (heads : List String),
        opts.ssrHandler = some handler ∧
        firstRedirect (initSSR req.host req.pathname opts.routes) = none ∧
        handler (initSSR req.host req.pathname opts.routes) = .nonText heads) :
    (fetch req env opts).headAction = .noHandler ∧
    (fetch req env opts).bodyAction = .noHandler ∧
    (∀ (st : PassState) (orig : String),
      renderStep (mkCfg .noHandler .noHandler env opts) st (.ssrHeadMarker orig) = (st, orig)) ∧
    (∀ (st : PassState) (orig : String),
      renderStep (mkCfg .noHandler .noHandler env opts) st (.ssrBodyMarker orig) = (st, orig)) ∧
    (∀ m : String, env.indexMtime = some m → req.ifModifiedSince = some m →
      fetch req env opts =
        ⟨.notModified, 304, none, [], .noHandler, .noHandler, opts.ssrHandler.isSome⟩) ∧
    (∀ m : String, env.indexMtime = some m → req.ifModifiedSince ≠ some m →
      fetch req env opts =
        ⟨.page, 200, some (renderTemplate (mkCfg .noHandler .noHandler env opts) opts.indexHtml),
          [("Content-Type", "text/html; charset=utf-8"), ("Last-Modified", m),
           ("Cache-Control", "public, max-age=0, must-revalidate")],
          .noHandler, .noHandler, opts.ssrHandler.isSome⟩) ∧
    (env.indexMtime = none →
      fetch req env opts =
        ⟨.page, 200, some (renderTemplate (mkCfg .noHandler .noHandler env opts) opts.indexHtml),
          [("Content-Type", "text/html; charset=utf-8"),
           ("Cache-Control", "public, max-age=0, must-revalidate")],
          .noHandler, .noHandler, opts.ssrHandler.isSome⟩) := by
  rcases h with hnone | ⟨handler, heads, hh, hred, hnon⟩
  · refine ⟨?_, ?_, fun st orig => rfl, fun st orig => rfl, ?_, ?_, ?_⟩
    · cases hmt : env.indexMtime with
      | none => simp [fetch, hnone, hmt]
      | some m =>
        by_cases hims : req.ifModifiedSince = some m
        · simp [fetch, hnone, hmt, hims]
        · simp [fetch, hnone, hmt, hims]
    · cases hmt : env.indexMtime with
      | none => simp [fetch, hnone, hmt]
      | some m =>
        by_cases hims : req.ifModifiedSince = some m
        · simp [fetch, hnone, hmt, hims]
        · simp [fetch, hnone, hmt, hims]
    · intro m hm hims
      simp [fetch, hnone, hm, hims]
    · intro m hm hims
      simp [fetch, hnone, hm, hims]
    · intro hm
      simp [fetch, hnone, hm]
  · refine ⟨?_, ?_, fun st orig => rfl, fun st orig => rfl, ?_, ?_, ?_⟩
    · cases hmt : env.indexMtime with
      | none => simp [fetch, hh, hred, hnon, hmt]
      | some m =>
        by_cases hims : req.ifModifiedSince = some m
        · simp [fetch, hh, hred, hnon, hmt, hims]
        · simp [fetch, hh, hred, hnon, hmt, hims]
    · cases hmt : env.indexMtime with
      | none => simp [fetch, hh, hred, hnon, hmt]
      | some m =>
        by_cases hims : req.ifModifiedSince = some m
        · simp [fetch, hh, hred, hnon, hmt, hims]
        · simp [fetch, hh, hred, hnon, hmt, hims]
    · intro m hm hims
      simp [fetch, hh, hred, hnon, hm, hims]
    · intro m hm hims
      simp [fetch, hh, hred, hnon, hm, hims]
    · intro hm
      simp [fetch, hh, hred, hnon, hm]

/-- Claim C10 witness: no handler, matching `If-Modified-Since` — the
static path answers with an empty 304. -/
theorem claim_C10_witness :
    fetch req10 env10 opts10 =
      ⟨.notModified, 304, none, [], .noHandler, .noHandler, false⟩ := by
  have h := claim_C10 req10 env10 opts10 (Or.inl rfl)
  have h5 := h.2.2.2.2.1 ("Wed, 01 Jan 2025 00:00:00 GMT") rfl rfl
  simpa using h5
